import Mathlib

set_option maxRecDepth 8000

/-!
Shallow embedding of `google/datalab/contrib/pipeline/_pipeline.py`: the
`Pipeline` class and its `py` property, which render a parsed pipeline
configuration as the text of an Airflow DAG program.

Conventions of the embedding:
* Python dicts are association lists (`List (String × _)`) carrying the
  dict's insertion order; configuration dicts produced by the YAML parser
  have unique keys, so theorems about order independence carry `Nodup`
  hypotheses on the key lists.
* Python exceptions surface as `Except PyErr`; `KeyError` and
  `AttributeError` are distinguished because the source raises both.
* `sorted(...)` over dict items compares the (unique) keys by code-point
  order; `sortedByKey` realises that with a kernel-computable comparison.
* The in-place mutation of `task_details` done by
  `_add_default_override_params` is modelled by state passing:
  `_get_operator_definition` returns the updated mapping beside the text.
-/

namespace PipelineGen

/-- A Python runtime value standing as a task-parameter value: the types the
generator branches on (`int`, `bool`, `float`, `NoneType`), strings, lists of
strings (`up_stream`), and opaque env objects that may expose a `.sql`
attribute. A `float` is carried by its `str()` rendering, an object by its
`str()` rendering plus its optional `.sql` attribute. -/
inductive PValue where
  | vInt (n : Int)
  | vBool (b : Bool)
  | vFloat (r : String)
  | vNone
  | vStr (s : String)
  | vObj (r : String) (sql : Option String)
  | vList (xs : List String)
  deriving DecidableEq, Repr

/-- Python `str()` of a `PValue`, as used by `'{1}'.format(value)`. -/
def PValue.str : PValue → String
  | .vInt n => toString n
  | .vBool true => "True"
  | .vBool false => "False"
  | .vFloat r => r
  | .vNone => "None"
  | .vStr s => s
  | .vObj r _ => r
  | .vList xs => "[" ++ String.intercalate ", " (xs.map (fun s => "'" ++ s ++ "'")) ++ "]"

/-- The Python exceptions the generator can raise: `KeyError` on a missing
dict key, `AttributeError` on a missing attribute (e.g. `.get` on `None`,
`.sql` on a value without it, `.strftime` on `None`). -/
inductive PyErr where
  | keyError (key : String)
  | attributeError (attr : String)
  deriving DecidableEq, Repr

instance {ε α : Type} [DecidableEq ε] [DecidableEq α] : DecidableEq (Except ε α)
  | .ok a, .ok b =>
    if h : a = b then .isTrue (congrArg Except.ok h)
    else .isFalse (fun hh => h (Except.ok.inj hh))
  | .error a, .error b =>
    if h : a = b then .isTrue (congrArg Except.error h)
    else .isFalse (fun hh => h (Except.error.inj hh))
  | .ok _, .error _ => .isFalse (fun hh => Except.noConfusion hh)
  | .error _, .ok _ => .isFalse (fun hh => Except.noConfusion hh)

/-- A timezone-unaware Python `datetime.datetime`, as far as the generator
looks at one: the six fields its `strftime('%Y-%m-%dT%H:%M:%S')` reads. -/
structure PyDateTime where
  year : Nat
  month : Nat
  day : Nat
  hour : Nat
  minute : Nat
  second : Nat
  deriving DecidableEq, Repr

/-- Zero-padding to two digits, as `%m`, `%d`, `%H`, `%M`, `%S` do. -/
def pad2 (n : Nat) : String :=
  if n < 10 then "0" ++ toString n else toString n

/-- Zero-padding to four digits, as `%Y` does. -/
def pad4 (n : Nat) : String :=
  if n < 10 then "000" ++ toString n
  else if n < 100 then "00" ++ toString n
  else if n < 1000 then "0" ++ toString n
  else toString n

/-- `datetime_obj.strftime('%Y-%m-%dT%H:%M:%S')`. -/
def PyDateTime.strftimeIso (d : PyDateTime) : String :=
  pad4 d.year ++ "-" ++ pad2 d.month ++ "-" ++ pad2 d.day ++ "T" ++
    pad2 d.hour ++ ":" ++ pad2 d.minute ++ ":" ++ pad2 d.second

/-- A task's parameter dict: keys to values, in insertion order. -/
abbrev TaskDetails := List (String × PValue)

/-- The `schedule` sub-dict of the parsed configuration; each field is
`none` when its key is absent from the dict. -/
structure Schedule where
  start_date : Option PyDateTime
  end_date : Option PyDateTime
  schedule_interval : Option String
  deriving DecidableEq, Repr

/-- The parsed configuration (`dag_spec`); each field is `none` when its
key is absent. -/
structure DagSpec where
  email : Option String
  schedule : Option Schedule
  tasks : Option (List (String × TaskDetails))
  deriving DecidableEq, Repr

/-- A `Pipeline` object: `spec_str` is `none` for an empty/absent spec text
and `some d` for a text the external parser turns into `d`; `name` is the
pipeline name. The `env` mapping only matters through the `PValue.vObj`
values already resolved into the configuration. -/
structure Pipeline where
  spec_str : Option DagSpec
  name : String

/-- Code-point comparison of strings as char lists: Python's `<=` on `str`. -/
def charListLe : List Char → List Char → Bool
  | [], _ => true
  | _ :: _, [] => false
  | a :: as, b :: bs =>
    if a.toNat < b.toNat then true
    else if b.toNat < a.toNat then false
    else charListLe as bs

/-- Python's `<=` on strings (lexicographic by code point). -/
def strLe (a b : String) : Bool := charListLe a.data b.data

/-- Python `sorted(d.items())` for a dict `d` (whose keys are unique):
stable sort of the pairs by key. -/
def sortedByKey {α : Type} (l : List (String × α)) : List (String × α) :=
  List.insertionSort (fun x y : String × α => strLe x.1 y.1 = true) l

/-- One simultaneous pass of Python `fmt.format(a, b)` over `fmt`'s
characters, for format strings whose placeholders are `{0}` and `{1}`. -/
def subst2 (a b : String) : List Char → String
  | [] => ""
  | '{' :: '0' :: '}' :: rest => a ++ subst2 a b rest
  | '{' :: '1' :: '}' :: rest => b ++ subst2 a b rest
  | c :: rest => String.singleton c ++ subst2 a b rest

/-- Python `fmt.format(a, b)` for the two-placeholder templates the
generator uses. -/
def pyFormat2 (fmt a b : String) : String := subst2 a b fmt.data

/-- Concatenation of a list of strings, in order. -/
def strConcat : List String → String
  | [] => ""
  | s :: rest => s ++ strConcat rest

/-- The `Pipeline._imports` preamble (lines 23-32 of the source). -/
def Pipeline._imports : String :=
  "\nfrom airflow import DAG\nfrom airflow.operators.bash_operator import BashOperator\nfrom airflow.contrib.operators.bigquery_operator import BigQueryOperator\nfrom airflow.contrib.operators.bigquery_table_delete_operator import BigQueryTableDeleteOperator\nfrom airflow.contrib.operators.bigquery_to_bigquery import BigQueryToBigQueryOperator\nfrom airflow.contrib.operators.bigquery_to_gcs import BigQueryToCloudStorageOperator\nfrom datetime import timedelta\nfrom pytz import timezone\n"

/-- The datetime re-encoding expression `_get_datetime_expr_str` builds for
a present datetime object (lines 110-113 of the source). -/
def datetime_expr_str (d : PyDateTime) : String :=
  "datetime.datetime.strptime('" ++ d.strftimeIso ++ "', '%Y-%m-%dT%H:%M:%S')" ++
    ".replace(tzinfo=timezone('UTC'))"

/-- `Pipeline._get_datetime_expr_str`: `None.strftime` raises
`AttributeError`. -/
def _get_datetime_expr_str (datetime_obj : Option PyDateTime) : Except PyErr String :=
  match datetime_obj with
  | none => .error (.attributeError "strftime")
  | some d => .ok (datetime_expr_str d)

/-- `airflow_default_args_format.format(email, start_date_str, end_date_str)`
(lines 85-99 of the source), with the three substituted strings as
arguments and the template's `{{`/`}}` rendered as literal braces. -/
def default_args_format (email start_date_str end_date_str : String) : String :=
  "\ndefault_args = \x7b\n    'owner': 'Datalab',\n    'depends_on_past': False,\n    'email': ['" ++
    email ++ "'],\n    'start_date': " ++ start_date_str ++
    ",\n    'end_date': " ++ end_date_str ++
    ",\n    'email_on_failure': True,\n    'email_on_retry': False,\n    'retries': 1,\n    'retry_delay': timedelta(minutes=1),\n\x7d\n\n"

/-- `Pipeline._get_default_args`: formats the start expression, then the
end expression, then the block. -/
def _get_default_args (email : String) (start_date end_date : Option PyDateTime) :
    Except PyErr String :=
  match _get_datetime_expr_str start_date with
  | .error e => .error e
  | .ok start_date_str =>
    match _get_datetime_expr_str end_date with
    | .error e => .error e
    | .ok end_date_str => .ok (default_args_format email start_date_str end_date_str)

/-- The default-arguments block for present datetimes. -/
def default_args_block (email : String) (sd ed : PyDateTime) : String :=
  default_args_format email (datetime_expr_str sd) (datetime_expr_str ed)

/-- `Pipeline._get_dag_definition` (lines 147-151 of the source). -/
def _get_dag_definition (name schedule_interval : String) : String :=
  "dag = DAG(dag_id='" ++ name ++ "', schedule_interval='" ++ schedule_interval ++
    "', default_args=default_args)\n\n"

/-- The fixed task-type lookup table `task_type_to_operator_prefix_mapping`
(lines 170-177 of the source). -/
def task_type_to_operator_prefix_mapping : List (String × String) :=
  [("bq", "BigQuery"),
   ("bq.execute", "BigQuery"),
   ("bq.query", "BigQuery"),
   ("bq-table-delete", "BigQueryTableDelete"),
   ("bq.extract", "BigQueryToCloudStorage"),
   ("bash", "Bash")]

/-- `Pipeline._get_operator_classname`: table lookup on the raw type value
(a non-string type value never matches the string keys), then
`'{0}Operator'` with the table entry, or with the raw token itself when the
lookup misses. -/
def _get_operator_classname (task_detail_type : PValue) : String :=
  let looked :=
    match task_detail_type with
    | .vStr s => List.lookup s task_type_to_operator_prefix_mapping
    | _ => none
  match looked with
  | some p => p ++ "Operator"
  | none => task_detail_type.str ++ "Operator"

/-- `Pipeline._get_param_format_string` (lines 140-145 of the source):
unquoted template for `int`, `bool`, `float`, `NoneType`; quoted otherwise. -/
def _get_param_format_string (param_value : PValue) : String :=
  match param_value with
  | .vInt _ | .vBool _ | .vFloat _ | .vNone => ", {0}={1}"
  | _ => ", {0}='{1}'"

/-- `Pipeline._get_operator_param_name_and_value` (lines 185-204): for
`BigQueryOperator`, a parameter named `query` becomes `bql` and its value
becomes `param_value.sql` (raising `AttributeError` when the value has no
such attribute); every other parameter passes through. -/
def _get_operator_param_name_and_value (param_name : String) (param_value : PValue)
    (operator_class_name : String) : Except PyErr (String × PValue) :=
  if operator_class_name = "BigQueryOperator" ∧ param_name = "query" then
    match param_value with
    | .vObj _ (some sql) => .ok ("bql", .vStr sql)
    | _ => .error (.attributeError "sql")
  else .ok (param_name, param_value)

/-- `Pipeline._add_default_override_params` (lines 206-215): for
`BigQueryOperator`, inserts `use_legacy_sql: False` into the task dict when
that key is absent (a dict insertion appends at the end); otherwise leaves
the dict alone. The result is the mutated `task_details` object. -/
def _add_default_override_params (task_details : TaskDetails)
    (operator_class_name : String) : TaskDetails :=
  if operator_class_name = "BigQueryOperator" then
    if (List.lookup "use_legacy_sql" task_details).isSome then task_details
    else task_details ++ [("use_legacy_sql", PValue.vBool false)]
  else task_details

/-- The parameter-string loop of `_get_operator_definition` (lines 124-133):
walk the (sorted) parameter pairs, skip `type` and `up_stream`, and append
each formatted parameter to the accumulated string. -/
def buildParamString (operator_classname : String) :
    List (String × PValue) → String → Except PyErr String
  | [], param_string => .ok param_string
  | (param_name, param_value) :: rest, param_string =>
    if param_name = "type" ∨ param_name = "up_stream" then
      buildParamString operator_classname rest param_string
    else
      match _get_operator_param_name_and_value param_name param_value operator_classname with
      | .error e => .error e
      | .ok (operator_param_name, operator_param_value) =>
        buildParamString operator_classname rest
          (param_string ++
            pyFormat2 (_get_param_format_string param_value)
              operator_param_name operator_param_value.str)

/-- `Pipeline._get_operator_definition` (lines 115-138): look up `type`
(`KeyError` when absent), resolve the class name, run the default override
(mutating the dict), emit the parameters sorted by name after the leading
`task_id='<id>_id'`, and wrap as `<id> = <Class>(<params>, dag=dag)\n`.
Returns the statement together with the mutated `task_details`. -/
def _get_operator_definition (task_id : String) (task_details : TaskDetails) :
    Except PyErr (String × TaskDetails) :=
  match List.lookup "type" task_details with
  | none => .error (.keyError "type")
  | some operator_type =>
    let operator_classname := _get_operator_classname operator_type
    let task_details2 := _add_default_override_params task_details operator_classname
    match buildParamString operator_classname (sortedByKey task_details2)
        ("task_id='" ++ task_id ++ "_id'") with
    | .error e => .error e
    | .ok param_string =>
      .ok (task_id ++ " = " ++ operator_classname ++ "(" ++ param_string ++ ", dag=dag)\n",
           task_details2)

/-- `task_details.get('up_stream', [])`: the listed upstream task ids, `[]`
when the key is absent. -/
def getUpStream (task_details : TaskDetails) : List String :=
  match List.lookup "up_stream" task_details with
  | some (.vList xs) => xs
  | _ => []

/-- `Pipeline._get_dependency_definition` (lines 153-162): one
`<task_id>.set_upstream(<dependency>)` line per entry, in list order. -/
def _get_dependency_definition (task_id : String) (dependencies : List String) : String :=
  match dependencies with
  | [] => ""
  | dependency :: rest =>
    task_id ++ ".set_upstream(" ++ dependency ++ ")\n" ++
      _get_dependency_definition task_id rest

/-- The task loop of `py` (lines 69-76): in order over the sorted task
pairs, accumulate the operator definitions and, separately, the
set-upstream statements (the loop reads `up_stream` from the mapping the
operator step just mutated). -/
def emitTasks : List (String × TaskDetails) → Except PyErr (String × String)
  | [] => .ok ("", "")
  | (task_id, task_details) :: rest =>
    match _get_operator_definition task_id task_details with
    | .error e => .error e
    | .ok (task_def, task_details2) =>
      let dependency_def := _get_dependency_definition task_id (getUpStream task_details2)
      match emitTasks rest with
      | .error e => .error e
      | .ok (task_definitions, up_steam_statements) =>
        .ok (task_def ++ task_definitions, dependency_def ++ up_steam_statements)

/-- The `py` property (lines 48-79): `None` for an empty spec; otherwise
`dag_spec.get('schedule').get(...)` (so a missing `schedule` raises
`AttributeError` on `None`), `dag_spec['email']` (`KeyError` when absent),
the default-args block, `schedule['schedule_interval']` (`KeyError`),
`dag_spec['tasks']` (`KeyError`), the task loop over the sorted items, and
the final concatenation. -/
def Pipeline.py (p : Pipeline) : Except PyErr (Option String) :=
  match p.spec_str with
  | none => .ok none
  | some dag_spec =>
    match dag_spec.schedule with
    | none => .error (.attributeError "get")
    | some sched =>
      match dag_spec.email with
      | none => .error (.keyError "email")
      | some email =>
        match _get_default_args email sched.start_date sched.end_date with
        | .error e => .error e
        | .ok default_args =>
          match sched.schedule_interval with
          | none => .error (.keyError "schedule_interval")
          | some schedule_interval =>
            let dag_definition := _get_dag_definition p.name schedule_interval
            match dag_spec.tasks with
            | none => .error (.keyError "tasks")
            | some tasks =>
              match emitTasks (sortedByKey tasks) with
              | .error e => .error e
              | .ok (task_definitions, up_steam_statements) =>
                .ok (some (Pipeline._imports ++ default_args ++ dag_definition ++
                  task_definitions ++ up_steam_statements))


/-! ### Order and lookup lemmas -/

theorem charListLe_total (a b : List Char) :
    charListLe a b = true ∨ charListLe b a = true := by
  induction a generalizing b with
  | nil => left; simp [charListLe]
  | cons x xs ih =>
    cases b with
    | nil => right; simp [charListLe]
    | cons y ys =>
      rcases Nat.lt_trichotomy x.toNat y.toNat with h | h | h
      · left; simp [charListLe, h]
      · have h2 : ¬ x.toNat < y.toNat := by omega
        have h3 : ¬ y.toNat < x.toNat := by omega
        simpa [charListLe, h2, h3] using ih ys
      · right; simp [charListLe, h]

theorem charListLe_trans {a b c : List Char} (hab : charListLe a b = true)
    (hbc : charListLe b c = true) : charListLe a c = true := by
  induction a generalizing b c with
  | nil => simp [charListLe]
  | cons x xs ih =>
    cases b with
    | nil => simp [charListLe] at hab
    | cons y ys =>
      cases c with
      | nil => simp [charListLe] at hbc
      | cons z zs =>
        simp only [charListLe] at hab hbc ⊢
        rcases Nat.lt_trichotomy x.toNat y.toNat with h1 | h1 | h1 <;>
          rcases Nat.lt_trichotomy y.toNat z.toNat with h2 | h2 | h2 <;>
          simp_all <;> try omega
        all_goals {
          have hxz : ¬ x.toNat < z.toNat := by omega
          have hzx : ¬ z.toNat < x.toNat := by omega
          simp_all
          exact ih hab hbc
        }

theorem charListLe_antisymm {a b : List Char} (hab : charListLe a b = true)
    (hba : charListLe b a = true) : a = b := by
  induction a generalizing b with
  | nil =>
    cases b with
    | nil => rfl
    | cons y ys => simp [charListLe] at hba
  | cons x xs ih =>
    cases b with
    | nil => simp [charListLe] at hab
    | cons y ys =>
      simp only [charListLe] at hab hba
      rcases Nat.lt_trichotomy x.toNat y.toNat with h1 | h1 | h1
      · simp [h1, Nat.lt_asymm h1] at hba
      · have h2 : ¬ x.toNat < y.toNat := by omega
        have h3 : ¬ y.toNat < x.toNat := by omega
        simp only [h2, h3, if_false] at hab hba
        have hx : x = y := Char.ext (UInt32.ext h1)
        rw [hx, ih hab hba]
      · simp [h1, Nat.lt_asymm h1] at hab

theorem strLe_total (a b : String) : strLe a b = true ∨ strLe b a = true :=
  charListLe_total a.data b.data

theorem strLe_trans {a b c : String} (hab : strLe a b = true) (hbc : strLe b c = true) :
    strLe a c = true :=
  charListLe_trans hab hbc

theorem strLe_antisymm {a b : String} (hab : strLe a b = true) (hba : strLe b a = true) :
    a = b := by
  cases a with
  | mk la =>
    cases b with
    | mk lb => exact congrArg String.mk (charListLe_antisymm hab hba)


theorem sortedByKey_perm {α : Type} (l : List (String × α)) : (sortedByKey l).Perm l :=
  List.perm_insertionSort _ l

theorem sortedByKey_sorted {α : Type} (l : List (String × α)) :
    List.Pairwise (fun x y : String × α => strLe x.1 y.1 = true) (sortedByKey l) := by
  haveI : IsTotal (String × α) (fun x y => strLe x.1 y.1 = true) :=
    ⟨fun a b => strLe_total a.1 b.1⟩
  haveI : IsTrans (String × α) (fun x y => strLe x.1 y.1 = true) :=
    ⟨fun _ _ _ hab hbc => strLe_trans hab hbc⟩
  exact List.sorted_insertionSort _ l

theorem sortedByKey_eq_of_perm {α : Type} {l₁ l₂ : List (String × α)} (h : l₁.Perm l₂)
    (hnd : (l₁.map Prod.fst).Nodup) : sortedByKey l₁ = sortedByKey l₂ := by
  have hperm : (sortedByKey l₁).Perm (sortedByKey l₂) :=
    (sortedByKey_perm l₁).trans (h.trans (sortedByKey_perm l₂).symm)
  have hnd₁ : ((sortedByKey l₁).map Prod.fst).Nodup :=
    (((sortedByKey_perm l₁).map Prod.fst).nodup_iff).mpr hnd
  have hnd₂ : ((sortedByKey l₂).map Prod.fst).Nodup :=
    (((sortedByKey_perm l₂).map Prod.fst).nodup_iff).mpr (((h.map Prod.fst).nodup_iff).mp hnd)
  have hs₁ : List.Pairwise (fun x y : String × α => x.1 ≠ y.1 ∧ strLe x.1 y.1 = true)
      (sortedByKey l₁) :=
    (List.pairwise_map.mp hnd₁).and (sortedByKey_sorted l₁)
  have hs₂ : List.Pairwise (fun x y : String × α => x.1 ≠ y.1 ∧ strLe x.1 y.1 = true)
      (sortedByKey l₂) :=
    (List.pairwise_map.mp hnd₂).and (sortedByKey_sorted l₂)
  exact @List.eq_of_perm_of_sorted _ _
    ⟨fun a b ha hb => False.elim (ha.1 (strLe_antisymm ha.2 hb.2))⟩ _ _ hperm hs₁ hs₂

theorem lookup_isSome_iff {α : Type} (k : String) (l : List (String × α)) :
    (List.lookup k l).isSome = true ↔ k ∈ l.map Prod.fst := by
  induction l with
  | nil => simp [List.lookup]
  | cons x t ih =>
    obtain ⟨a, b⟩ := x
    by_cases hk : k = a
    · simp [List.lookup, hk]
    · have hk2 : (k == a) = false := by simpa using hk
      simp [List.lookup, hk2, hk, ih]

theorem lookup_append_single {α : Type} (k : String) (l : List (String × α)) (x : String × α) :
    List.lookup k (l ++ [x]) =
      match List.lookup k l with
      | some v => some v
      | none => List.lookup k [x] := by
  induction l with
  | nil => simp [List.lookup]
  | cons y t ih =>
    obtain ⟨a, b⟩ := y
    by_cases hk : (k == a) = true <;> simp [List.lookup, hk, ih]

theorem lookup_eq_of_perm {α : Type} (k : String) {l₁ l₂ : List (String × α)}
    (h : l₁.Perm l₂) (hnd : (l₁.map Prod.fst).Nodup) :
    List.lookup k l₁ = List.lookup k l₂ := by
  induction h with
  | nil => rfl
  | cons x h ih =>
    obtain ⟨a, b⟩ := x
    simp only [List.map_cons, List.nodup_cons] at hnd
    by_cases hk : (k == a) = true
    · simp [List.lookup, hk]
    · have hk2 : (k == a) = false := by simpa using hk
      simp only [List.lookup, hk2]
      exact ih hnd.2
  | swap x y l =>
    obtain ⟨a, b⟩ := x
    obtain ⟨c, d⟩ := y
    simp only [List.map_cons, List.nodup_cons, List.mem_cons] at hnd
    by_cases h1 : (k == c) = true <;> by_cases h2 : (k == a) = true
    · exfalso
      have hc : k = c := by simpa using h1
      have ha : k = a := by simpa using h2
      exact hnd.1 (Or.inl (hc.symm.trans ha))
    · simp [List.lookup, h1, h2]
    · simp [List.lookup, h1, h2]
    · simp [List.lookup, h1, h2]
  | trans h₁ h₂ ih₁ ih₂ =>
    have hnd' := ((h₁.map Prod.fst).nodup_iff).mp hnd
    exact (ih₁ hnd).trans (ih₂ hnd')

theorem getUpStream_override (td : TaskDetails) (cls : String) :
    getUpStream (_add_default_override_params td cls) = getUpStream td := by
  unfold _add_default_override_params
  by_cases hc : cls = "BigQueryOperator"
  · by_cases hs : (List.lookup "use_legacy_sql" td).isSome = true
    · simp [hc, hs]
    · simp only [hc, if_true, hs, if_false, Bool.false_eq_true, eq_self_iff_true]
      unfold getUpStream
      rw [lookup_append_single]
      cases List.lookup "up_stream" td <;> simp [List.lookup]
  · simp [hc]


/-! ### Format-application and emission-decomposition lemmas -/

theorem pyFormat2_unquoted (a b : String) :
    pyFormat2 ", {0}={1}" a b = ", " ++ a ++ "=" ++ b := by
  have h : pyFormat2 ", {0}={1}" a b = ", " ++ (a ++ ("=" ++ (b ++ ""))) := rfl
  rw [h, String.append_empty]
  simp [String.append_assoc]

theorem pyFormat2_quoted (a b : String) :
    pyFormat2 ", {0}='{1}'" a b = ", " ++ a ++ "='" ++ b ++ "'" := by
  have h : pyFormat2 ", {0}='{1}'" a b = ", " ++ (a ++ ("='" ++ (b ++ ("'" ++ "")))) := rfl
  rw [h, String.append_empty]
  simp [String.append_assoc]

/-- The parameter fragments the loop of `_get_operator_definition` appends
after the leading `task_id` argument: one formatted `, name=value` piece per
non-reserved parameter, in iteration order. -/
def paramFragments (operator_classname : String) :
    List (String × PValue) → Except PyErr (List String)
  | [] => .ok []
  | (param_name, param_value) :: rest =>
    if param_name = "type" ∨ param_name = "up_stream" then
      paramFragments operator_classname rest
    else
      match _get_operator_param_name_and_value param_name param_value operator_classname with
      | .error e => .error e
      | .ok (operator_param_name, operator_param_value) =>
        match paramFragments operator_classname rest with
        | .error e => .error e
        | .ok frags =>
          .ok (pyFormat2 (_get_param_format_string param_value)
              operator_param_name operator_param_value.str :: frags)

theorem buildParamString_eq (cls : String) (l : List (String × PValue)) (acc : String) :
    buildParamString cls l acc =
      Except.map (fun frags => acc ++ strConcat frags) (paramFragments cls l) := by
  induction l generalizing acc with
  | nil => simp [buildParamString, paramFragments, Except.map, strConcat, String.append_empty]
  | cons x rest ih =>
    obtain ⟨n, v⟩ := x
    by_cases hn : n = "type" ∨ n = "up_stream"
    · simp only [buildParamString, paramFragments, hn, if_true]
      exact ih acc
    · simp only [buildParamString, paramFragments, hn, if_false]
      cases _get_operator_param_name_and_value n v cls with
      | error e => simp [Except.map]
      | ok p =>
        obtain ⟨n2, v2⟩ := p
        dsimp only
        rw [ih]
        cases paramFragments cls rest with
        | error e => simp [Except.map]
        | ok frags => simp [Except.map, strConcat, String.append_assoc]

/-- The operator statements of a task list, one per task, in order. -/
def taskDefStrings : List (String × TaskDetails) → Except PyErr (List String)
  | [] => .ok []
  | (task_id, task_details) :: rest =>
    match _get_operator_definition task_id task_details with
    | .error e => .error e
    | .ok (task_def, _) =>
      match taskDefStrings rest with
      | .error e => .error e
      | .ok l => .ok (task_def :: l)

/-- The dependency blocks of a task list, one per task, in order. -/
def depDefStrings (l : List (String × TaskDetails)) : List String :=
  l.map (fun t => _get_dependency_definition t.1 (getUpStream t.2))

theorem _get_operator_definition_ok {task_id : String} {td : TaskDetails} {s : String}
    {td2 : TaskDetails} (h : _get_operator_definition task_id td = .ok (s, td2)) :
    ∃ t, List.lookup "type" td = some t ∧
      td2 = _add_default_override_params td (_get_operator_classname t) ∧
      ∃ ps, buildParamString (_get_operator_classname t) (sortedByKey td2)
          ("task_id='" ++ task_id ++ "_id'") = .ok ps ∧
        s = task_id ++ " = " ++ _get_operator_classname t ++ "(" ++ ps ++ ", dag=dag)\n" := by
  unfold _get_operator_definition at h
  cases hty : List.lookup "type" td with
  | none => rw [hty] at h; exact absurd h (by simp)
  | some t =>
    rw [hty] at h
    simp only at h
    cases hbp : buildParamString (_get_operator_classname t)
        (sortedByKey (_add_default_override_params td (_get_operator_classname t)))
        ("task_id='" ++ task_id ++ "_id'") with
    | error e => rw [hbp] at h; exact absurd h (by simp)
    | ok ps =>
      rw [hbp] at h
      simp only [Except.ok.injEq, Prod.mk.injEq] at h
      refine ⟨t, rfl, h.2.symm, ps, ?_, h.1.symm⟩
      rw [h.2] at hbp
      exact hbp

theorem emitTasks_eq (l : List (String × TaskDetails)) :
    emitTasks l =
      Except.map (fun defs => (strConcat defs, strConcat (depDefStrings l)))
        (taskDefStrings l) := by
  induction l with
  | nil => rfl
  | cons x rest ih =>
    obtain ⟨tid, td⟩ := x
    simp only [emitTasks, taskDefStrings]
    cases hop : _get_operator_definition tid td with
    | error e => simp [Except.map]
    | ok pr =>
      obtain ⟨tdef, td2⟩ := pr
      rw [ih]
      cases taskDefStrings rest with
      | error e => simp [Except.map]
      | ok defs =>
        simp only [Except.map, depDefStrings, List.map_cons, strConcat]
        obtain ⟨t, hty, htd2, _⟩ := _get_operator_definition_ok hop
        rw [htd2, getUpStream_override]

theorem taskDefStrings_length {l : List (String × TaskDetails)} {defs : List String}
    (h : taskDefStrings l = .ok defs) : defs.length = l.length := by
  induction l generalizing defs with
  | nil =>
    simp only [taskDefStrings, Except.ok.injEq] at h
    subst h
    rfl
  | cons x rest ih =>
    obtain ⟨tid, td⟩ := x
    simp only [taskDefStrings] at h
    cases hop : _get_operator_definition tid td with
    | error e => simp only [hop] at h; exact absurd h (by simp)
    | ok pr =>
      obtain ⟨s, td2⟩ := pr
      simp only [hop] at h
      cases htds : taskDefStrings rest with
      | error e => simp only [htds] at h; exact absurd h (by simp)
      | ok defs' =>
        simp only [htds, Except.ok.injEq] at h
        subst h
        simp [ih htds]

theorem py_unfold {p : Pipeline} {d : DagSpec} {em : String} {sch : Schedule}
    {sd ed : PyDateTime} {si : String} {ts : List (String × TaskDetails)}
    (h1 : p.spec_str = some d) (h2 : d.schedule = some sch) (h3 : d.email = some em)
    (h4 : sch.start_date = some sd) (h5 : sch.end_date = some ed)
    (h6 : sch.schedule_interval = some si) (h7 : d.tasks = some ts) :
    Pipeline.py p =
      match emitTasks (sortedByKey ts) with
      | .error e => .error e
      | .ok (tds, ups) =>
        .ok (some (Pipeline._imports ++ default_args_block em sd ed ++
          _get_dag_definition p.name si ++ tds ++ ups)) := by
  unfold Pipeline.py
  rw [h1]
  simp only [h2, h3, h4, h5, h6, h7, _get_default_args, _get_datetime_expr_str]
  rfl


theorem _add_default_override_params_sorted_eq {td₁ td₂ : TaskDetails} (cls : String)
    (h : td₁.Perm td₂) (hnd : (td₁.map Prod.fst).Nodup) :
    sortedByKey (_add_default_override_params td₁ cls) =
      sortedByKey (_add_default_override_params td₂ cls) := by
  unfold _add_default_override_params
  by_cases hc : cls = "BigQueryOperator"
  · have hlk : List.lookup "use_legacy_sql" td₁ = List.lookup "use_legacy_sql" td₂ :=
      lookup_eq_of_perm _ h hnd
    by_cases hs : (List.lookup "use_legacy_sql" td₁).isSome = true
    · rw [hlk] at hs
      simp only [hc, if_true, hlk, hs]
      exact sortedByKey_eq_of_perm h hnd
    · have hs₂ : (List.lookup "use_legacy_sql" td₂).isSome = true ↔ False := by
        rw [← hlk]; simp [hs]
      simp only [hc, if_true, hlk, hs₂, if_false, iff_false_intro, eq_self_iff_true]
      apply sortedByKey_eq_of_perm (h.append_right _)
      have hmem : "use_legacy_sql" ∉ td₁.map Prod.fst := by
        intro hm
        exact hs ((lookup_isSome_iff _ _).mpr hm)
      simp only [List.map_append]
      rw [List.nodup_append]
      refine ⟨hnd, by simp, ?_⟩
      intro a ha hb
      simp at hb
      subst hb
      exact hmem ha
  · simp only [hc, if_false]
    exact sortedByKey_eq_of_perm h hnd

theorem _get_operator_definition_perm (tid : String) {td₁ td₂ : TaskDetails}
    (h : td₁.Perm td₂) (hnd : (td₁.map Prod.fst).Nodup) :
    Except.map Prod.fst (_get_operator_definition tid td₁) =
      Except.map Prod.fst (_get_operator_definition tid td₂) := by
  have hlk : List.lookup "type" td₁ = List.lookup "type" td₂ := lookup_eq_of_perm _ h hnd
  simp only [_get_operator_definition, hlk]
  cases List.lookup "type" td₂ with
  | none => rfl
  | some t =>
    dsimp only
    rw [_add_default_override_params_sorted_eq (_get_operator_classname t) h hnd]
    cases buildParamString (_get_operator_classname t)
        (sortedByKey (_add_default_override_params td₂ (_get_operator_classname t)))
        ("task_id='" ++ tid ++ "_id'") with
    | error e => rfl
    | ok ps => rfl

/-! ### Spec-side predicate for the value-formatting policy -/

/-- From the spec's formatting policy: the parameter values emitted unquoted
are exactly those whose runtime type is integer, boolean, float, or absent
(`None`). -/
def isLiteralTokenType : PValue → Bool
  | .vInt _ => true
  | .vBool _ => true
  | .vFloat _ => true
  | .vNone => true
  | _ => false

/-! ### Concrete example configurations -/

def dtJan1 : PyDateTime := ⟨2017, 1, 1, 0, 0, 0⟩

def dtJan2 : PyDateTime := ⟨2017, 1, 2, 0, 0, 0⟩

def exSchedule : Schedule := ⟨some dtJan1, some dtJan2, some "@daily"⟩

def tdBash : TaskDetails := [("type", PValue.vStr "bash")]

def tdPrint : TaskDetails :=
  [("type", PValue.vStr "bash"), ("bash_command", PValue.vStr "echo hi")]

def tdQuery : TaskDetails :=
  [("type", PValue.vStr "bq.query"), ("query", PValue.vObj "obj" (some "SELECT 1"))]

def tdDangling : TaskDetails :=
  [("type", PValue.vStr "bash"), ("up_stream", PValue.vList ["x", "y"])]

def exPipeline : Pipeline := ⟨some ⟨some "a@b.c", some exSchedule, some [("print", tdPrint)]⟩, "my_dag"⟩

def pDangling : Pipeline :=
  ⟨some ⟨some "a@b.c", some exSchedule, some [("t", tdDangling)]⟩, "my_dag"⟩

def pUnknownType : Pipeline :=
  ⟨some ⟨some "a@b.c", some exSchedule, some [("job", [("type", PValue.vStr "foo")])]⟩, "my_dag"⟩

def pNoSchedule : Pipeline := ⟨some ⟨some "a@b.c", none, some [("t1", tdBash)]⟩, "dag1"⟩

/-- Whether a generation outcome is a key-not-found failure. -/
def resultIsKeyError : Except PyErr (Option String) → Bool
  | .error (.keyError _) => true
  | _ => false


def tdQueryLegacy : TaskDetails :=
  [("type", PValue.vStr "bq.query"), ("query", PValue.vObj "obj" (some "SELECT 1")),
   ("use_legacy_sql", PValue.vBool true)]

/-- C5: for every emitted task parameter, the value is rendered unquoted as a
literal token exactly when its runtime type is integer, boolean, float or
absent (None); every other value type is rendered as a quoted string literal
containing the value's string representation. -/
theorem c5_value_formatting (v : PValue) (nm : String) :
    (_get_param_format_string v = ", {0}={1}" ↔ isLiteralTokenType v = true) ∧
    (_get_param_format_string v = ", {0}='{1}'" ↔ isLiteralTokenType v = false) ∧
    (isLiteralTokenType v = true →
      pyFormat2 (_get_param_format_string v) nm v.str = ", " ++ nm ++ "=" ++ v.str) ∧
    (isLiteralTokenType v = false →
      pyFormat2 (_get_param_format_string v) nm v.str = ", " ++ nm ++ "='" ++ v.str ++ "'") := by
  have hne : (", {0}={1}" : String) ≠ ", {0}='{1}'" := by decide
  cases v with
  | vInt n =>
    exact ⟨iff_of_true rfl rfl, iff_of_false hne (by simp [isLiteralTokenType]),
      fun _ => pyFormat2_unquoted _ _, fun hh => by simp [isLiteralTokenType] at hh⟩
  | vBool b =>
    exact ⟨iff_of_true rfl rfl, iff_of_false hne (by simp [isLiteralTokenType]),
      fun _ => pyFormat2_unquoted _ _, fun hh => by simp [isLiteralTokenType] at hh⟩
  | vFloat r =>
    exact ⟨iff_of_true rfl rfl, iff_of_false hne (by simp [isLiteralTokenType]),
      fun _ => pyFormat2_unquoted _ _, fun hh => by simp [isLiteralTokenType] at hh⟩
  | vNone =>
    exact ⟨iff_of_true rfl rfl, iff_of_false hne (by simp [isLiteralTokenType]),
      fun _ => pyFormat2_unquoted _ _, fun hh => by simp [isLiteralTokenType] at hh⟩
  | vStr s =>
    exact ⟨iff_of_false (Ne.symm hne) (by simp [isLiteralTokenType]), iff_of_true rfl rfl,
      fun hh => by simp [isLiteralTokenType] at hh, fun _ => pyFormat2_quoted _ _⟩
  | vObj r sql =>
    exact ⟨iff_of_false (Ne.symm hne) (by simp [isLiteralTokenType]), iff_of_true rfl rfl,
      fun hh => by simp [isLiteralTokenType] at hh, fun _ => pyFormat2_quoted _ _⟩
  | vList xs =>
    exact ⟨iff_of_false (Ne.symm hne) (by simp [isLiteralTokenType]), iff_of_true rfl rfl,
      fun hh => by simp [isLiteralTokenType] at hh, fun _ => pyFormat2_quoted _ _⟩

/-- C3: for a task resolved to the query-type operator class
(`BigQueryOperator`) with a parameter named exactly `query`, the parameter is
emitted under the name `bql` and its value is the `.sql` attribute of the
parameter's value (quoted, since the original value is a non-literal object),
not the value itself; concretely, a `bq.query` task whose `query` object has
`.sql = "SELECT 1"` yields `bql='SELECT 1'` in the instantiation statement. -/
theorem c3_query_parameter_substitution :
    (∀ r sql : String,
      _get_operator_param_name_and_value "query" (.vObj r (some sql)) "BigQueryOperator" =
        .ok ("bql", .vStr sql)) ∧
    (∀ r sql : String,
      pyFormat2 (_get_param_format_string (.vObj r (some sql))) "bql"
          (PValue.str (.vStr sql)) = ", bql='" ++ sql ++ "'") ∧
    _get_operator_definition "foo" tdQuery =
      .ok ("foo = BigQueryOperator(task_id='foo_id', bql='SELECT 1', use_legacy_sql=False, dag=dag)\n",
        tdQuery ++ [("use_legacy_sql", PValue.vBool false)]) := by
  refine ⟨fun r sql => rfl, fun r sql => ?_, rfl⟩
  exact pyFormat2_quoted "bql" sql

/-- C4: for a `BigQueryOperator` task whose parameter mapping lacks
`use_legacy_sql`, generation inserts `use_legacy_sql = False` into that
mapping (the mutated mapping returned beside the statement is the original
with the pair appended) before emission, so the statement contains
`use_legacy_sql=False`; when the key is present the mapping and its value
are left unchanged. -/
theorem c4_use_legacy_sql_default :
    (∀ td : TaskDetails, (List.lookup "use_legacy_sql" td).isSome = false →
      _add_default_override_params td "BigQueryOperator" =
        td ++ [("use_legacy_sql", PValue.vBool false)]) ∧
    (∀ td : TaskDetails, (List.lookup "use_legacy_sql" td).isSome = true →
      _add_default_override_params td "BigQueryOperator" = td) ∧
    (∀ (td : TaskDetails) (cls : String), cls ≠ "BigQueryOperator" →
      _add_default_override_params td cls = td) ∧
    _get_operator_definition "q1" tdQuery =
      .ok ("q1 = BigQueryOperator(task_id='q1_id', bql='SELECT 1', use_legacy_sql=False, dag=dag)\n",
        tdQuery ++ [("use_legacy_sql", PValue.vBool false)]) ∧
    _get_operator_definition "q2" tdQueryLegacy =
      .ok ("q2 = BigQueryOperator(task_id='q2_id', bql='SELECT 1', use_legacy_sql=True, dag=dag)\n",
        tdQueryLegacy) := by
  refine ⟨fun td hk => ?_, fun td hk => ?_, fun td cls hc => ?_, rfl, rfl⟩
  · simp [_add_default_override_params, hk]
  · simp [_add_default_override_params, hk]
  · simp [_add_default_override_params, hc]

/-- C6: for every task, exactly one dependency statement of the form
`<task_id>.set_upstream(<dependency>)` is emitted per entry of its
`up_stream` list, in list order (for `["x", "y"]`: two statements, `x`
first), and nothing checks that the referenced identifiers name declared
tasks: a configuration whose only task depends on undeclared `x` and `y`
still generates successfully with both statements present. -/
theorem c6_dependency_statements :
    (∀ (tid : String) (deps : List String),
      _get_dependency_definition tid deps =
        strConcat (deps.map (fun dep => tid ++ ".set_upstream(" ++ dep ++ ")\n"))) ∧
    (∀ (tid : String) (deps : List String),
      (deps.map (fun dep => tid ++ ".set_upstream(" ++ dep ++ ")\n")).length = deps.length) ∧
    _get_dependency_definition "t" ["x", "y"] = "t.set_upstream(x)\nt.set_upstream(y)\n" ∧
    Pipeline.py pDangling = .ok (some
      ("\nfrom airflow import DAG\nfrom airflow.operators.bash_operator import BashOperator\nfrom airflow.contrib.operators.bigquery_operator import BigQueryOperator\nfrom airflow.contrib.operators.bigquery_table_delete_operator import BigQueryTableDeleteOperator\nfrom airflow.contrib.operators.bigquery_to_bigquery import BigQueryToBigQueryOperator\nfrom airflow.contrib.operators.bigquery_to_gcs import BigQueryToCloudStorageOperator\nfrom datetime import timedelta\nfrom pytz import timezone\n\ndefault_args = \x7b\n    'owner': 'Datalab',\n    'depends_on_past': False,\n    'email': ['a@b.c'],\n    'start_date': datetime.datetime.strptime('2017-01-01T00:00:00', '%Y-%m-%dT%H:%M:%S').replace(tzinfo=timezone('UTC')),\n    'end_date': datetime.datetime.strptime('2017-01-02T00:00:00', '%Y-%m-%dT%H:%M:%S').replace(tzinfo=timezone('UTC')),\n    'email_on_failure': True,\n    'email_on_retry': False,\n    'retries': 1,\n    'retry_delay': timedelta(minutes=1),\n\x7d\n\ndag = DAG(dag_id='my_dag', schedule_interval='@daily', default_args=default_args)\n\nt = BashOperator(task_id='t_id', dag=dag)\nt.set_upstream(x)\nt.set_upstream(y)\n")) := by
  refine ⟨fun tid deps => ?_, fun tid deps => by simp, rfl, rfl⟩
  induction deps with
  | nil => rfl
  | cons d rest ih => simp [_get_dependency_definition, strConcat, ih]

/-- C8: a task whose `type` token is not one of the six recognized entries of
the fixed lookup table does not make generation fail: the raw token passes
through unchanged as the class-name prefix, the emitted class name being the
token with `Operator` appended; a configuration using type `foo` generates a
program referencing `fooOperator`. -/
theorem c8_unknown_type_passthrough :
    task_type_to_operator_prefix_mapping.map Prod.fst =
      ["bq", "bq.execute", "bq.query", "bq-table-delete", "bq.extract", "bash"] ∧
    (∀ s : String,
      s ∉ ["bq", "bq.execute", "bq.query", "bq-table-delete", "bq.extract", "bash"] →
      _get_operator_classname (.vStr s) = s ++ "Operator") ∧
    Pipeline.py pUnknownType = .ok (some
      ("\nfrom airflow import DAG\nfrom airflow.operators.bash_operator import BashOperator\nfrom airflow.contrib.operators.bigquery_operator import BigQueryOperator\nfrom airflow.contrib.operators.bigquery_table_delete_operator import BigQueryTableDeleteOperator\nfrom airflow.contrib.operators.bigquery_to_bigquery import BigQueryToBigQueryOperator\nfrom airflow.contrib.operators.bigquery_to_gcs import BigQueryToCloudStorageOperator\nfrom datetime import timedelta\nfrom pytz import timezone\n\ndefault_args = \x7b\n    'owner': 'Datalab',\n    'depends_on_past': False,\n    'email': ['a@b.c'],\n    'start_date': datetime.datetime.strptime('2017-01-01T00:00:00', '%Y-%m-%dT%H:%M:%S').replace(tzinfo=timezone('UTC')),\n    'end_date': datetime.datetime.strptime('2017-01-02T00:00:00', '%Y-%m-%dT%H:%M:%S').replace(tzinfo=timezone('UTC')),\n    'email_on_failure': True,\n    'email_on_retry': False,\n    'retries': 1,\n    'retry_delay': timedelta(minutes=1),\n\x7d\n\ndag = DAG(dag_id='my_dag', schedule_interval='@daily', default_args=default_args)\n\njob = fooOperator(task_id='job_id', dag=dag)\n")) := by
  refine ⟨rfl, fun s hs => ?_, rfl⟩
  cases hl : List.lookup s task_type_to_operator_prefix_mapping with
  | none => simp [_get_operator_classname, hl, PValue.str]
  | some p =>
    exfalso
    apply hs
    have := (lookup_isSome_iff s task_type_to_operator_prefix_mapping).mp (by simp [hl])
    simpa [task_type_to_operator_prefix_mapping] using this

/-- C10: every emitted instantiation statement assigns the operator to a
variable named exactly the raw task identifier, while its leading keyword
argument is `task_id='<task_id>_id'` — the identifier with `_id` appended,
not the identifier itself; dependency statements, by contrast, reference
the raw identifiers on both sides. -/
theorem c10_task_id_suffix :
    (∀ (tid : String) (td : TaskDetails) (s : String) (td2 : TaskDetails),
      _get_operator_definition tid td = .ok (s, td2) →
      ∃ cls rest, s = tid ++ " = " ++ cls ++ "(" ++
        ("task_id='" ++ tid ++ "_id'" ++ rest) ++ ", dag=dag)\n") ∧
    (∀ tid dep : String,
      _get_dependency_definition tid [dep] = tid ++ ".set_upstream(" ++ dep ++ ")\n") ∧
    _get_operator_definition "print" tdPrint =
      .ok ("print = BashOperator(task_id='print_id', bash_command='echo hi', dag=dag)\n",
        tdPrint) := by
  refine ⟨fun tid td s td2 h => ?_, fun tid dep => ?_, rfl⟩
  · obtain ⟨t, hty, htd2, ps, hbp, hs⟩ := _get_operator_definition_ok h
    rw [buildParamString_eq] at hbp
    cases hf : paramFragments (_get_operator_classname t) (sortedByKey td2) with
    | error e => rw [hf] at hbp; exact absurd hbp (by simp [Except.map])
    | ok frags =>
      rw [hf] at hbp
      simp only [Except.map, Except.ok.injEq] at hbp
      refine ⟨_get_operator_classname t, strConcat frags, ?_⟩
      rw [hs, ← hbp]
  · simp [_get_dependency_definition, String.append_empty]


/-- C1: for every non-empty configuration whose required keys are present and
whose tasks all emit successfully, the generated program text is exactly the
concatenation, in fixed order, of the import preamble, the default-arguments
block (embedding the email address and the start/end datetime expressions),
the graph declaration (embedding the pipeline name and the schedule-interval
string), then one instantiation statement per task, then all set-upstream
dependency statements; every instantiation statement precedes every
dependency statement. -/
theorem c1_output_is_ordered_concatenation (p : Pipeline) (d : DagSpec) (em : String)
    (sch : Schedule) (sd ed : PyDateTime) (si : String)
    (ts : List (String × TaskDetails)) (defs : List String)
    (h1 : p.spec_str = some d) (h2 : d.schedule = some sch) (h3 : d.email = some em)
    (h4 : sch.start_date = some sd) (h5 : sch.end_date = some ed)
    (h6 : sch.schedule_interval = some si) (h7 : d.tasks = some ts)
    (h8 : taskDefStrings (sortedByKey ts) = .ok defs) :
    Pipeline.py p = .ok (some (Pipeline._imports ++
      default_args_format em (datetime_expr_str sd) (datetime_expr_str ed) ++
      _get_dag_definition p.name si ++
      strConcat defs ++ strConcat (depDefStrings (sortedByKey ts)))) ∧
    defs.length = (sortedByKey ts).length ∧
    (depDefStrings (sortedByKey ts)).length = (sortedByKey ts).length := by
  refine ⟨?_, taskDefStrings_length h8, by simp [depDefStrings]⟩
  rw [py_unfold h1 h2 h3 h4 h5 h6 h7, emitTasks_eq, h8]
  rfl

theorem c1_witness :
    Pipeline.py exPipeline = .ok (some (Pipeline._imports ++
      default_args_format "a@b.c" (datetime_expr_str dtJan1) (datetime_expr_str dtJan2) ++
      _get_dag_definition exPipeline.name "@daily" ++
      strConcat ["print = BashOperator(task_id='print_id', bash_command='echo hi', dag=dag)\n"] ++
      strConcat (depDefStrings (sortedByKey [("print", tdPrint)])))) ∧
    (["print = BashOperator(task_id='print_id', bash_command='echo hi', dag=dag)\n"] :
      List String).length = (sortedByKey [("print", tdPrint)]).length ∧
    (depDefStrings (sortedByKey [("print", tdPrint)])).length =
      (sortedByKey [("print", tdPrint)]).length :=
  c1_output_is_ordered_concatenation exPipeline
    ⟨some "a@b.c", some exSchedule, some [("print", tdPrint)]⟩
    "a@b.c" exSchedule dtJan1 dtJan2 "@daily" [("print", tdPrint)]
    ["print = BashOperator(task_id='print_id', bash_command='echo hi', dag=dag)\n"]
    rfl rfl rfl rfl rfl rfl rfl rfl

/-- C2: the instantiation statements (and, in the same ordering, the blocks
of dependency statements) are emitted in lexicographic order of task
identifier, independent of the insertion order of the tasks mapping:
permuting a unique-keyed tasks mapping leaves the generated program
unchanged, the emission order is key-sorted, and for tasks inserted as
b-then-a the statement for a is emitted before the statement for b. -/
theorem c2_lexicographic_task_order :
    (∀ (nm : String) (em : Option String) (sch : Option Schedule)
       (ts₁ ts₂ : List (String × TaskDetails)),
      ts₁.Perm ts₂ → (ts₁.map Prod.fst).Nodup →
      Pipeline.py ⟨some ⟨em, sch, some ts₁⟩, nm⟩ =
        Pipeline.py ⟨some ⟨em, sch, some ts₂⟩, nm⟩) ∧
    (∀ ts : List (String × TaskDetails),
      List.Pairwise (fun x y : String × TaskDetails => strLe x.1 y.1 = true) (sortedByKey ts)) ∧
    taskDefStrings (sortedByKey [("b", tdBash), ("a", tdBash)]) =
      .ok ["a = BashOperator(task_id='a_id', dag=dag)\n",
           "b = BashOperator(task_id='b_id', dag=dag)\n"] := by
  refine ⟨fun nm em sch ts₁ ts₂ hperm hnd => ?_, sortedByKey_sorted, rfl⟩
  have hsort := sortedByKey_eq_of_perm hperm hnd
  simp only [Pipeline.py, hsort]

/-- C7 counterexample: a configuration with `schedule` absent but `email`
and `tasks` present fails with an attribute error (`.get` called on `None`),
which is not a key-not-found error, against the claim that every one of the
missing-key cases surfaces as a lookup error. -/
theorem c7_counterexample_schedule_attribute_error :
    Pipeline.py pNoSchedule = .error (.attributeError "get") ∧
    resultIsKeyError (Pipeline.py pNoSchedule) = false := ⟨rfl, rfl⟩

/-- C7 (amended): a missing `email` or `tasks` key, or a task mapping with no
`type` key, fails generation with a key-not-found error and produces no
output; a missing `schedule` key also fails generation with no output, but
through an attribute error (`.get` on `None`) rather than a lookup error. -/
theorem c7_missing_key_failures :
    (∀ (p : Pipeline) (d : DagSpec), p.spec_str = some d → d.schedule = none →
      Pipeline.py p = .error (.attributeError "get")) ∧
    (∀ (p : Pipeline) (d : DagSpec) (sch : Schedule),
      p.spec_str = some d → d.schedule = some sch → d.email = none →
      Pipeline.py p = .error (.keyError "email")) ∧
    (∀ (p : Pipeline) (d : DagSpec) (sch : Schedule) (em : String) (sd ed : PyDateTime)
       (si : String),
      p.spec_str = some d → d.schedule = some sch → d.email = some em →
      sch.start_date = some sd → sch.end_date = some ed → sch.schedule_interval = some si →
      d.tasks = none → Pipeline.py p = .error (.keyError "tasks")) ∧
    (∀ (p : Pipeline) (d : DagSpec) (sch : Schedule) (em : String) (sd ed : PyDateTime)
       (si : String) (ts : List (String × TaskDetails)),
      p.spec_str = some d → d.schedule = some sch → d.email = some em →
      sch.start_date = some sd → sch.end_date = some ed → sch.schedule_interval = some si →
      d.tasks = some ts → ts ≠ [] → (∀ t ∈ ts, List.lookup "type" t.2 = none) →
      Pipeline.py p = .error (.keyError "type")) := by
  refine ⟨fun p d h1 h2 => ?_, fun p d sch h1 h2 h3 => ?_,
    fun p d sch em sd ed si h1 h2 h3 h4 h5 h6 h7 => ?_,
    fun p d sch em sd ed si ts h1 h2 h3 h4 h5 h6 h7 hne hall => ?_⟩
  · simp only [Pipeline.py, h1, h2]
  · simp only [Pipeline.py, h1, h2, h3]
  · simp only [Pipeline.py, h1, h2, h3, h4, h5, h6, h7, _get_default_args,
      _get_datetime_expr_str]
  · have hpy := py_unfold h1 h2 h3 h4 h5 h6 h7
    cases hsrt : sortedByKey ts with
    | nil =>
      exfalso
      apply hne
      have hp := sortedByKey_perm ts
      rw [hsrt] at hp
      exact (List.perm_nil.mp hp.symm)
    | cons x rest =>
      obtain ⟨tid, td⟩ := x
      have hmem : (tid, td) ∈ ts := (sortedByKey_perm ts).mem_iff.mp (by rw [hsrt]; simp)
      have hty : List.lookup "type" td = none := hall _ hmem
      rw [hpy, hsrt]
      simp [emitTasks, _get_operator_definition, hty]

/-- C9: within each emitted instantiation statement the generic keyword
parameters (every key but the stripped `type` and `up_stream`) are rendered
from the task mapping sorted lexicographically by parameter name, after the
leading `task_id` argument, and the statement is the same for any insertion
order of a unique-keyed mapping; concretely, parameters inserted z-then-a
are emitted a-then-z. -/
theorem c9_param_lexicographic_order :
    (∀ (tid : String) (td : TaskDetails) (t : PValue) (s : String) (td2 : TaskDetails),
      List.lookup "type" td = some t →
      _get_operator_definition tid td = .ok (s, td2) →
      List.Pairwise (fun x y : String × PValue => strLe x.1 y.1 = true) (sortedByKey td2) ∧
      ∃ frags, paramFragments (_get_operator_classname t) (sortedByKey td2) = .ok frags ∧
        s = tid ++ " = " ++ _get_operator_classname t ++ "(" ++
          ("task_id='" ++ tid ++ "_id'" ++ strConcat frags) ++ ", dag=dag)\n") ∧
    (∀ (tid : String) (td₁ td₂ : TaskDetails), td₁.Perm td₂ → (td₁.map Prod.fst).Nodup →
      Except.map Prod.fst (_get_operator_definition tid td₁) =
        Except.map Prod.fst (_get_operator_definition tid td₂)) ∧
    _get_operator_definition "t"
        [("z", PValue.vStr "1"), ("a", PValue.vStr "2"), ("type", PValue.vStr "bash")] =
      .ok ("t = BashOperator(task_id='t_id', a='2', z='1', dag=dag)\n",
        [("z", PValue.vStr "1"), ("a", PValue.vStr "2"), ("type", PValue.vStr "bash")]) := by
  refine ⟨fun tid td t s td2 hty h => ?_, _get_operator_definition_perm, rfl⟩
  obtain ⟨t', hty', htd2, ps, hbp, hs⟩ := _get_operator_definition_ok h
  rw [hty] at hty'
  have ht : t' = t := by injection hty'.symm
  subst ht
  refine ⟨sortedByKey_sorted td2, ?_⟩
  rw [buildParamString_eq] at hbp
  cases hf : paramFragments (_get_operator_classname t') (sortedByKey td2) with
  | error e => rw [hf] at hbp; exact absurd hbp (by simp [Except.map])
  | ok frags =>
    rw [hf] at hbp
    simp only [Except.map, Except.ok.injEq] at hbp
    exact ⟨frags, rfl, by rw [hs, ← hbp]⟩

end PipelineGen
